import Mathlib

/-!
Verification of the Karpenter cleanup custom-resource handler
(`unitune-infra/lib/constructs/k8s/karpenter-cleanup/index.py`).

The Python module is shallowly embedded: every external call (EC2
`describe_instances`, IAM `list_instance_profiles_for_role` /
`remove_role_from_instance_profile` / `delete_instance_profile`,
`subprocess.run`, `os.environ`, `os.path`) is resolved through an explicit
oracle ("world") argument, and Python exceptions are modelled with
`Except` values that propagate exactly where the source lets them
propagate and are caught exactly where the source catches them.
-/

set_option linter.unusedVariables false

namespace KarpenterCleanup

/-! ## String helpers (Python `in` and `str.lower`) -/

/-- `hasPrefixChars pat s` decides whether `pat` is a prefix of `s`. -/
def hasPrefixChars : List Char → List Char → Bool
  | [], _ => true
  | _ :: _, [] => false
  | p :: ps, c :: cs => (p == c) && hasPrefixChars ps cs

/-- `containsChars pat s` decides whether `pat` occurs contiguously in `s`. -/
def containsChars (pat : List Char) : List Char → Bool
  | [] => hasPrefixChars pat []
  | c :: cs => hasPrefixChars pat (c :: cs) || containsChars pat cs

/-- Python `pat in s` (substring test). -/
def strContains (s pat : String) : Bool :=
  containsChars pat.data s.data

theorem hasPrefixChars_self (l : List Char) : hasPrefixChars l l = true := by
  induction l with
  | nil => rfl
  | cons c cs ih => simp [hasPrefixChars, ih]

theorem containsChars_self (pat : List Char) : containsChars pat pat = true := by
  cases pat with
  | nil => rfl
  | cons c cs => simp [containsChars, hasPrefixChars_self]

theorem containsChars_append_left (pat : List Char) :
    ∀ xs ys, containsChars pat ys = true → containsChars pat (xs ++ ys) = true := by
  intro xs
  induction xs with
  | nil => intro ys h; simpa using h
  | cons x xs ih =>
    intro ys h
    simp only [List.cons_append, containsChars, Bool.or_eq_true]
    exact Or.inr (ih ys h)

/-- A string always contains any of its suffixes: `pat in (a ++ pat)`. -/
theorem strContains_append (a pat : String) : strContains (a ++ pat) pat = true := by
  simp only [strContains, String.data_append]
  exact containsChars_append_left pat.data a.data pat.data (containsChars_self pat.data)

/-! ## IAM model and `cleanup_instance_profiles` -/

/-- Outcome of one IAM mutation call
(`remove_role_from_instance_profile` / `delete_instance_profile`):
either it returns, raises `NoSuchEntityException`, or raises some other
exception carrying the text `str(e)`. -/
inductive IamResult where
  | success
  | noSuchEntity
  | failure (msg : String)
deriving DecidableEq, Repr

/-- Exception raised while listing instance profiles (the paginated
`list_instance_profiles_for_role` enumeration). -/
inductive IamErr where
  | noSuchEntity
  | exc (msg : String)
deriving DecidableEq, Repr

/-- How the per-profile retry loop in `cleanup_instance_profiles` ended. -/
inductive ProfileOutcome where
  /-- `delete_instance_profile` returned: the code logs
  "Successfully deleted" and breaks. -/
  | deleted
  /-- `NoSuchEntityException` was raised: the code logs
  "already deleted" and breaks. -/
  | assumedGone
  /-- a conflict-classified error occurred on the last attempt: the code
  logs the "Failed to delete ... after N attempts" warning and the `for`
  loop ends. -/
  | conflictWarned
  /-- a non-conflict error occurred: the code logs
  "Error cleaning up instance profile" and breaks. -/
  | abandoned (msg : String)
  /-- `range(max_retries)` was empty, the loop body never ran. -/
  | skipped
deriving DecidableEq, Repr

/-- Source line 82: `'DeleteConflict' in error_msg or 'in use' in error_msg.lower()`. -/
def conflictLike (msg : String) : Bool :=
  strContains msg "DeleteConflict" || strContains msg.toLower "in use"

/-- The body of `for attempt in range(max_retries)` (source lines 62-90),
generic in the backing IAM state `σ`.  `removeCall`/`deleteCall` take the
current attempt index and state and produce the call's result and the new
state.  Returns the loop outcome, the number of loop iterations executed,
and the final state.  `fuel` starts at `max_retries` with `attempt = 0`,
so `fuel = max_retries - attempt` throughout. -/
def runAttempts {σ : Type} (removeCall deleteCall : Nat → σ → IamResult × σ)
    (max_retries : Nat) : Nat → Nat → σ → ProfileOutcome × Nat × σ
  | 0, _, s => (ProfileOutcome.skipped, 0, s)
  | fuel + 1, attempt, s =>
    match removeCall attempt s with
    | (IamResult.noSuchEntity, s1) => (ProfileOutcome.assumedGone, attempt + 1, s1)
    | (IamResult.failure msg, s1) =>
      if conflictLike msg then
        if attempt < max_retries - 1 then
          runAttempts removeCall deleteCall max_retries fuel (attempt + 1) s1
        else (ProfileOutcome.conflictWarned, attempt + 1, s1)
      else (ProfileOutcome.abandoned msg, attempt + 1, s1)
    | (IamResult.success, s1) =>
      match deleteCall attempt s1 with
      | (IamResult.success, s2) => (ProfileOutcome.deleted, attempt + 1, s2)
      | (IamResult.noSuchEntity, s2) => (ProfileOutcome.assumedGone, attempt + 1, s2)
      | (IamResult.failure msg, s2) =>
        if conflictLike msg then
          if attempt < max_retries - 1 then
            runAttempts removeCall deleteCall max_retries fuel (attempt + 1) s2
          else (ProfileOutcome.conflictWarned, attempt + 1, s2)
        else (ProfileOutcome.abandoned msg, attempt + 1, s2)

/-- Oracle for the IAM client of one invocation.  `listProfilePages` gives,
per role name, the pages yielded by the `list_instance_profiles_for_role`
paginator (a page either raises or yields profile names);
`removeRes profile role i` / `deleteRes profile i` give the result of the
i-th `remove_role_from_instance_profile` / `delete_instance_profile` call
for that profile. -/
structure IamWorld where
  listProfilePages : String → List (Except IamErr (List String))
  removeRes : String → String → Nat → IamResult
  deleteRes : String → Nat → IamResult

/-- The retry loop run for one profile against the `IamWorld` oracle:
outcome and number of attempts executed. -/
def processProfile (w : IamWorld) (role_name profile_name : String)
    (max_retries : Nat) : ProfileOutcome × Nat :=
  let r := runAttempts
    (fun attempt _ => (w.removeRes profile_name role_name attempt, ()))
    (fun attempt _ => (w.deleteRes profile_name attempt, ()))
    max_retries max_retries 0 ()
  (r.1, r.2.1)

/-- The paginated enumeration (source lines 56-90): pages are consumed in
order; a page that raises aborts the enumeration with that exception,
otherwise every profile of the page is processed by the retry loop. -/
def runPages (w : IamWorld) (role_name : String) (max_retries : Nat) :
    List (Except IamErr (List String)) →
      List (String × ProfileOutcome × Nat) × Option IamErr
  | [] => ([], none)
  | Except.error e :: _ => ([], some e)
  | Except.ok names :: rest =>
    let reports := names.map (fun n => (n, processProfile w role_name n max_retries))
    let recResult := runPages w role_name max_retries rest
    (reports ++ recResult.1, recResult.2)

/-- How the outer `try/except` of `cleanup_instance_profiles` ended. -/
inductive ListingEnd where
  /-- the enumeration completed without raising. -/
  | completed
  /-- `NoSuchEntityException`: the code logs "Role ... not found, no
  instance profiles to clean up". -/
  | roleNotFound
  /-- any other exception: the code logs "Error listing instance profiles". -/
  | listWarned (msg : String)
deriving DecidableEq, Repr

/-- Observable result of `cleanup_instance_profiles`: the per-profile
reports (in enumeration order) and how the listing ended. -/
structure CleanupResult where
  reports : List (String × ProfileOutcome × Nat)
  listing : ListingEnd
deriving DecidableEq, Repr

/-- Source line 49: `role_name = f"KarpenterNodeRole-{cluster_name}"`. -/
def roleNameFor (cluster_name : String) : String :=
  "KarpenterNodeRole-" ++ cluster_name

/-- `cleanup_instance_profiles(cluster_name, region, max_retries=3)`
(source lines 43-95).  The second component is the exception escaping to
the caller; the trailing `except NoSuchEntityException` / `except
Exception` clauses catch every exception the body can raise, so it is
`none` on every path. -/
def cleanup_instance_profiles (w : IamWorld) (cluster_name region : String)
    (max_retries : Nat := 3) : CleanupResult × Option IamErr :=
  let role_name := roleNameFor cluster_name
  let run := runPages w role_name max_retries (w.listProfilePages role_name)
  match run.2 with
  | none => ({ reports := run.1, listing := ListingEnd.completed }, none)
  | some IamErr.noSuchEntity => ({ reports := run.1, listing := ListingEnd.roleNotFound }, none)
  | some (IamErr.exc m) => ({ reports := run.1, listing := ListingEnd.listWarned m }, none)

/-- The profile names the enumeration reaches, in order (stops at the
first page that raises). -/
def enumeratedNames : List (Except IamErr (List String)) → List String
  | [] => []
  | Except.error _ :: _ => []
  | Except.ok names :: rest => names ++ enumeratedNames rest

/-! ## EC2 model and `wait_for_karpenter_nodes_terminated` -/

/-- Oracle for the EC2 client: `describeInstances region poll filters` is
the result of the `describe_instances` call made on the poll-th iteration
of the wait loop — either the reservation list (each reservation a list of
instances) or a raised exception's text. -/
structure Ec2World where
  describeInstances : String → Nat → List (String × List String) →
    Except String (List (List Unit))

/-- The tag and state filters of the discovery query (source lines 23-27). -/
def karpenterFilters (cluster_name : String) : List (String × List String) :=
  [("tag:karpenter.sh/nodepool", ["*"]),
   ("tag:karpenter.sh/discovery", [cluster_name]),
   ("instance-state-name", ["pending", "running", "stopping", "shutting-down"])]

/-- Source line 30: `sum(len(r['Instances']) for r in response['Reservations'])`. -/
def instanceCount (reservations : List (List Unit)) : Nat :=
  (reservations.map List.length).sum

/-- The `while time.time() - start_time < timeout` loop (source lines
20-40).  Elapsed time advances only through the `time.sleep(15)` calls, so
`elapsed = 15 * poll`.  Returns the function's boolean result together
with the number of sleeps executed; a raised `describe_instances`
exception propagates (nothing in the function catches it).  `fuel` starts
at `timeout`; since `elapsed` grows by 15 per iteration the zero-fuel
clause is only reached with `elapsed ≥ timeout`, where it coincides with
the loop's exit. -/
def waitLoop (counts : Nat → Except String Nat) (timeout : Nat) :
    Nat → Nat → Nat → Except String (Bool × Nat)
  | 0, _, poll => Except.ok (false, poll)
  | fuel + 1, elapsed, poll =>
    if elapsed < timeout then
      match counts poll with
      | Except.error e => Except.error e
      | Except.ok c =>
        if c = 0 then Except.ok (true, poll)
        else waitLoop counts timeout fuel (elapsed + 15) (poll + 1)
    else Except.ok (false, poll)

/-- `wait_for_karpenter_nodes_terminated(cluster_name, region, timeout=300)`
(source lines 12-40). -/
def wait_for_karpenter_nodes_terminated (w : Ec2World) (cluster_name region : String)
    (timeout : Nat := 300) : Except String (Bool × Nat) :=
  waitLoop
    (fun poll => (w.describeInstances region poll (karpenterFilters cluster_name)).map instanceCount)
    timeout timeout 0 0

/-! ## The `handler` orchestrator -/

/-- Python exceptions distinguished by the handler's `except` clauses
(plus the key/configuration errors raised before the `try` block). -/
inductive PyExc where
  | timeoutExpired (msg : String)
  | calledProcessError (stderr : String)
  | keyError (key : String)
  | valueError (msg : String)
  | other (msg : String)
deriving DecidableEq, Repr

/-- `str(e)` for the modelled exceptions. -/
def pyStr : PyExc → String
  | PyExc.timeoutExpired m => m
  | PyExc.calledProcessError s => s
  | PyExc.keyError k => k
  | PyExc.valueError m => m
  | PyExc.other m => m

/-- Outcome of one `subprocess.run(...)` call: a completed process, a
raised `subprocess.TimeoutExpired`, or any other raised exception. -/
inductive RunOutcome where
  | completed (returncode : Int) (stdout stderr : String)
  | timedOut (msg : String)
  | raised (msg : String)
deriving Repr

/-- `event['ResourceProperties']`: the two keys the handler reads.
`none` models an absent key. -/
structure Props where
  clusterName : Option String
  region : Option String
deriving DecidableEq, Repr

/-- The incoming CloudFormation event, restricted to the fields the
handler reads before responding (the response-protocol fields consumed by
`send_response` are not modelled). -/
structure Event where
  requestType : Option String
  resourceProperties : Option Props
deriving DecidableEq, Repr

/-- The response `send_response` produces: the `Status` field and the
single message string placed in the `Data` dictionary. -/
structure Response where
  status : String
  message : String
deriving DecidableEq, Repr

/-- The full environment of one handler invocation. -/
structure HandlerWorld where
  /-- `os.environ.get('AWS_REGION')`. -/
  awsRegion : Option String
  /-- `os.path.exists('/opt/kubectl/kubectl')`. -/
  kubectlExists : Bool
  /-- `os.access('/opt/kubectl/kubectl', os.X_OK)`. -/
  kubectlExecutable : Bool
  /-- `subprocess.run(args, ..., timeout=t)` keyed by argv and timeout. -/
  subprocessRun : List String → Nat → RunOutcome
  ec2 : Ec2World
  iam : IamWorld

/-- Source line 117: `kubectl_path = '/opt/kubectl/kubectl'`. -/
def kubectlPath : String := "/opt/kubectl/kubectl"

/-- Source line 107's message. -/
def regionErrMsg : String :=
  "Region must be provided via ResourceProperties or AWS_REGION environment variable"

/-- Python `a or b` on the two optional region strings (source line 105):
a present, non-empty left operand wins, otherwise the right operand. -/
def pyOr (a b : Option String) : Option String :=
  match a with
  | some s => if s = "" then b else some s
  | none => b

/-- Python truthiness of an optional string (`if not region`, line 106). -/
def truthy : Option String → Bool
  | none => false
  | some s => !(s == "")

/-- A `subprocess.run` call as seen from inside the `try` block:
a completed process is returned (whatever its exit code — the source only
logs non-zero codes), `TimeoutExpired` and other exceptions propagate. -/
def runSubprocess (w : HandlerWorld) (args : List String) (timeoutArg : Nat) :
    Except PyExc (Int × String × String) :=
  match w.subprocessRun args timeoutArg with
  | RunOutcome.completed rc out err => Except.ok (rc, out, err)
  | RunOutcome.timedOut m => Except.error (PyExc.timeoutExpired m)
  | RunOutcome.raised m => Except.error (PyExc.other m)

/-- An exception escaping `cleanup_instance_profiles` (never happens, see
`cleanup_never_raises`) re-raised inside the handler's `try` block. -/
def iamErrToExc : IamErr → PyExc
  | IamErr.noSuchEntity => PyExc.other "NoSuchEntityException"
  | IamErr.exc m => PyExc.other m

/-- The body of the `try` block after the kubectl checks (source lines
131-190): version probe, kubeconfig refresh, NodePool deletion,
EC2NodeClass deletion, instance wait, instance-profile cleanup, then the
success response.  Each step's raised exception propagates to the
`except` clauses; completed subprocesses merely log. -/
def teardownBody (w : HandlerWorld) (cluster_name region : String) :
    Except PyExc Response :=
  match runSubprocess w [kubectlPath, "version", "--client", "--short"] 10 with
  | Except.error e => Except.error e
  | Except.ok _ =>
  match runSubprocess w ["aws", "eks", "update-kubeconfig", "--name", cluster_name,
      "--region", region] 60 with
  | Except.error e => Except.error e
  | Except.ok _ =>
  match runSubprocess w [kubectlPath, "delete", "nodepools.karpenter.sh", "--all",
      "--ignore-not-found=true"] 300 with
  | Except.error e => Except.error e
  | Except.ok _ =>
  match runSubprocess w [kubectlPath, "delete", "ec2nodeclasses.karpenter.k8s.aws", "--all",
      "--ignore-not-found=true"] 300 with
  | Except.error e => Except.error e
  | Except.ok _ =>
  match wait_for_karpenter_nodes_terminated w.ec2 cluster_name region 300 with
  | Except.error e => Except.error (PyExc.other e)
  | Except.ok _ =>
  match (cleanup_instance_profiles w.iam cluster_name region 3).2 with
  | some err => Except.error (iamErrToExc err)
  | none =>
    Except.ok { status := "SUCCESS", message := "Karpenter resources cleaned up successfully" }

/-- The whole `try` block (source lines 115-190): the kubectl existence
and executability checks return FAILED responses directly; everything
else runs `teardownBody`. -/
def tryBlock (w : HandlerWorld) (cluster_name region : String) : Except PyExc Response :=
  if w.kubectlExists = false then
    Except.ok { status := "FAILED", message := "kubectl not found at " ++ kubectlPath }
  else if w.kubectlExecutable = false then
    Except.ok { status := "FAILED", message := "kubectl at " ++ kubectlPath ++ " is not executable" }
  else teardownBody w cluster_name region

/-- The `except` clauses (source lines 192-203): every exception becomes a
SUCCESS response; only `TimeoutExpired` and `CalledProcessError` have
dedicated messages. -/
def exceptResponse : PyExc → Response
  | PyExc.timeoutExpired _ => { status := "SUCCESS", message := "Cleanup attempted but timed out" }
  | PyExc.calledProcessError stderr =>
    { status := "SUCCESS", message := "Cleanup attempted with warnings: " ++ stderr }
  | e => { status := "SUCCESS", message := "Cleanup attempted with errors: " ++ pyStr e }

/-- `handler(event, context)` (source lines 98-203).  `Except.error`
means the exception escapes the handler, so `send_response` is never
reached and no response of any status is delivered. -/
def handler (w : HandlerWorld) (event : Event) : Except PyExc Response :=
  match event.requestType with
  | none => Except.error (PyExc.keyError "RequestType")
  | some request_type =>
    match event.resourceProperties with
    | none => Except.error (PyExc.keyError "ResourceProperties")
    | some props =>
      match props.clusterName with
      | none => Except.error (PyExc.keyError "ClusterName")
      | some cluster_name =>
        let region_opt := pyOr props.region w.awsRegion
        if truthy region_opt = false then Except.error (PyExc.valueError regionErrMsg)
        else
          let region := region_opt.getD ""
          if request_type ≠ "Delete" then
            Except.ok { status := "SUCCESS", message := "No cleanup needed" }
          else
            match tryBlock w cluster_name region with
            | Except.ok resp => Except.ok resp
            | Except.error e => Except.ok (exceptResponse e)

/-! ## Concrete worlds used by witnesses and counterexamples -/

/-- IAM oracle with no profiles and all calls succeeding. -/
def trivialIam : IamWorld :=
  { listProfilePages := fun _ => []
    removeRes := fun _ _ _ => IamResult.success
    deleteRes := fun _ _ => IamResult.success }

/-- EC2 oracle whose discovery query always returns zero reservations. -/
def emptyEc2 : Ec2World :=
  { describeInstances := fun _ _ _ => Except.ok [] }

/-- EC2 oracle that always reports one reservation with one instance. -/
def busyEc2 : Ec2World :=
  { describeInstances := fun _ _ _ => Except.ok [[()]] }

/-- A handler environment where every external call succeeds and the
`AWS_REGION` environment variable is unset. -/
def baseWorld : HandlerWorld :=
  { awsRegion := none
    kubectlExists := true
    kubectlExecutable := true
    subprocessRun := fun _ _ => RunOutcome.completed 0 "" ""
    ec2 := emptyEc2
    iam := trivialIam }

end KarpenterCleanup

namespace KarpenterCleanup

/-! ## C10: key reads before the request-type check -/

/-- C10: the handler reads `event['RequestType']` and
`event['ResourceProperties']['ClusterName']` before the request-type
check and before the protective `try` block, so an event missing any of
these keys — whatever its `RequestType` — raises a `KeyError`; the raised
exception escapes, so `send_response` is never reached and no response of
any status is sent to the `ResponseURL` (an `Except.error` result excludes
every `Except.ok` response). -/
theorem missing_keys_keyerror (w : HandlerWorld) (e : Event) :
    (e.requestType = none → handler w e = Except.error (PyExc.keyError "RequestType"))
    ∧ (∀ rt, e.requestType = some rt → e.resourceProperties = none →
        handler w e = Except.error (PyExc.keyError "ResourceProperties"))
    ∧ (∀ rt props, e.requestType = some rt → e.resourceProperties = some props →
        props.clusterName = none → handler w e = Except.error (PyExc.keyError "ClusterName"))
    ∧ (∀ exc, handler w e = Except.error exc → ∀ r, handler w e ≠ Except.ok r) := by
  refine ⟨?_, ?_, ?_, ?_⟩
  · intro h; simp [handler, h]
  · intro rt h1 h2; simp [handler, h1, h2]
  · intro rt props h1 h2 h3; simp [handler, h1, h2, h3]
  · intro exc h r hr
    rw [h] at hr
    exact Except.noConfusion hr

/-- Witness for `missing_keys_keyerror`: three concrete malformed events,
one per missing key, with `Create` and `Update` request types. -/
theorem missing_keys_keyerror_witness :
    handler baseWorld { requestType := none, resourceProperties := none }
      = Except.error (PyExc.keyError "RequestType")
    ∧ handler baseWorld { requestType := some "Create", resourceProperties := none }
      = Except.error (PyExc.keyError "ResourceProperties")
    ∧ handler baseWorld
        { requestType := some "Update",
          resourceProperties := some { clusterName := none, region := some "us-east-1" } }
      = Except.error (PyExc.keyError "ClusterName") :=
  ⟨(missing_keys_keyerror baseWorld _).1 rfl,
   (missing_keys_keyerror baseWorld _).2.1 "Create" rfl rfl,
   (missing_keys_keyerror baseWorld _).2.2.1 "Update"
     { clusterName := none, region := some "us-east-1" } rfl rfl rfl⟩

/-! ## C8: region resolution -/

/-- C8: region resolution (`event['ResourceProperties'].get('Region') or
os.environ.get('AWS_REGION')`) gives precedence to a present, non-empty
`Region` property, falls back to the `AWS_REGION` environment variable
otherwise, and when both are absent the handler raises the configuration
`ValueError` — an `Except.error`, never converted to a SUCCESS response.
The error is the same for every oracle of the cloud collaborators (the
theorem quantifies over the whole `HandlerWorld`), i.e. it is raised
before any cloud API call. -/
theorem region_resolution_order (w : HandlerWorld) (e : Event) (props : Props)
    (rt cn : String)
    (h1 : e.requestType = some rt) (h2 : e.resourceProperties = some props)
    (h3 : props.clusterName = some cn) :
    (∀ r, props.region = some r → r ≠ "" → pyOr props.region w.awsRegion = some r)
    ∧ (props.region = none → pyOr props.region w.awsRegion = w.awsRegion)
    ∧ (props.region = none → w.awsRegion = none →
        handler w e = Except.error (PyExc.valueError regionErrMsg)
        ∧ ∀ resp, handler w e ≠ Except.ok resp) := by
  refine ⟨?_, ?_, ?_⟩
  · intro r hr hne; simp [pyOr, hr, hne]
  · intro hr; simp [pyOr, hr]
  · intro hr ha
    have hmain : handler w e = Except.error (PyExc.valueError regionErrMsg) := by
      simp [handler, h1, h2, h3, hr, ha, pyOr, truthy]
    refine ⟨hmain, ?_⟩
    intro resp hresp
    rw [hmain] at hresp
    exact Except.noConfusion hresp

/-- Witness for `region_resolution_order`: a Delete event whose properties
carry no `Region`, in an environment without `AWS_REGION`. -/
theorem region_resolution_order_witness :
    pyOr (some "eu-west-1") none = some "eu-west-1"
    ∧ handler baseWorld
        { requestType := some "Delete",
          resourceProperties := some { clusterName := some "demo", region := none } }
      = Except.error (PyExc.valueError regionErrMsg) :=
  ⟨(region_resolution_order baseWorld
      { requestType := some "Delete",
        resourceProperties := some { clusterName := some "demo", region := some "eu-west-1" } }
      { clusterName := some "demo", region := some "eu-west-1" } "Delete" "demo"
      rfl rfl rfl).1 "eu-west-1" rfl (by decide),
   ((region_resolution_order baseWorld
      { requestType := some "Delete",
        resourceProperties := some { clusterName := some "demo", region := none } }
      { clusterName := some "demo", region := none } "Delete" "demo"
      rfl rfl rfl).2.2 rfl rfl).1⟩

/-! ## C2: non-Delete requests -/

/-- Counterexample to C2 as frozen: a `Create` event with no `Region`
property, in an environment without `AWS_REGION`, does not report SUCCESS
— the handler raises the configuration `ValueError` of source line 107,
which is read before the request-type check. -/
theorem non_delete_missing_region_counterexample :
    handler baseWorld
        { requestType := some "Create",
          resourceProperties := some { clusterName := some "demo", region := none } }
      = Except.error (PyExc.valueError regionErrMsg)
    ∧ ∀ r, handler baseWorld
        { requestType := some "Create",
          resourceProperties := some { clusterName := some "demo", region := none } }
      ≠ Except.ok r := by
  refine ⟨rfl, ?_⟩
  intro r hr
  rw [show handler baseWorld
      { requestType := some "Create",
        resourceProperties := some { clusterName := some "demo", region := none } }
    = Except.error (PyExc.valueError regionErrMsg) from rfl] at hr
  exact Except.noConfusion hr

/-- C2 (amended): for every event carrying its `RequestType` and
`ClusterName` keys and a resolvable region, a non-Delete request type
makes the handler return SUCCESS ("No cleanup needed") immediately; the
result is the same constant for every oracle of the subprocess, EC2 and
IAM collaborators (second conjunct), i.e. no cloud-mutating call is
consulted. -/
theorem non_delete_success_amended (w : HandlerWorld) (e : Event) (props : Props)
    (rt cn : String)
    (h1 : e.requestType = some rt) (hne : rt ≠ "Delete")
    (h2 : e.resourceProperties = some props) (h3 : props.clusterName = some cn)
    (h4 : truthy (pyOr props.region w.awsRegion) = true) :
    handler w e = Except.ok { status := "SUCCESS", message := "No cleanup needed" }
    ∧ ∀ w' : HandlerWorld, w'.awsRegion = w.awsRegion → handler w' e = handler w e := by
  have hmain : ∀ w' : HandlerWorld, w'.awsRegion = w.awsRegion →
      handler w' e = Except.ok { status := "SUCCESS", message := "No cleanup needed" } := by
    intro w' hw
    have h4' : truthy (pyOr props.region w'.awsRegion) = true := by rw [hw]; exact h4
    simp [handler, h1, h2, h3, h4', hne]
  refine ⟨hmain w rfl, ?_⟩
  intro w' hw
  rw [hmain w' hw, hmain w rfl]

/-- Witness for `non_delete_success_amended`: an `Update` event with an
explicit region. -/
theorem non_delete_success_amended_witness :
    handler baseWorld
        { requestType := some "Update",
          resourceProperties := some { clusterName := some "demo", region := some "us-east-1" } }
      = Except.ok { status := "SUCCESS", message := "No cleanup needed" } :=
  (non_delete_success_amended baseWorld _
    { clusterName := some "demo", region := some "us-east-1" } "Update" "demo"
    rfl (by decide) rfl rfl (by decide)).1

/-! ## C6 and C7: the instance wait loop -/

/-- C6: when the first discovery query — made with the nodepool tag,
cluster discovery tag and pending/running/stopping/shutting-down state
filters — returns zero matching instances,
`wait_for_karpenter_nodes_terminated` returns `true` having executed zero
sleeps (it neither sleeps nor polls again). -/
theorem wait_empty_immediate_true (w : Ec2World) (cluster_name region : String)
    (timeout : Nat) (ht : 0 < timeout)
    (h : ∃ rs, w.describeInstances region 0 (karpenterFilters cluster_name) = Except.ok rs
        ∧ instanceCount rs = 0) :
    wait_for_karpenter_nodes_terminated w cluster_name region timeout
      = Except.ok (true, 0) := by
  obtain ⟨rs, hd, hc⟩ := h
  obtain ⟨t, rfl⟩ : ∃ t, timeout = t + 1 := ⟨timeout - 1, by omega⟩
  simp [wait_for_karpenter_nodes_terminated, waitLoop, hd, hc, Except.map]

/-- Witness for `wait_empty_immediate_true` at the default 300-second
timeout with an empty reservation list. -/
theorem wait_empty_immediate_true_witness :
    (0 < 300 ∧ ∃ rs, emptyEc2.describeInstances "us-east-1" 0 (karpenterFilters "demo")
        = Except.ok rs ∧ instanceCount rs = 0)
    ∧ wait_for_karpenter_nodes_terminated emptyEc2 "demo" "us-east-1" 300
      = Except.ok (true, 0) :=
  ⟨⟨by decide, ⟨[], rfl, rfl⟩⟩,
   wait_empty_immediate_true emptyEc2 "demo" "us-east-1" 300 (by decide) ⟨[], rfl, rfl⟩⟩

/-- Helper for C7: if every poll yields a non-zero count, the loop runs
out of time and returns `false` without raising. -/
theorem waitLoop_timeout_false (counts : Nat → Except String Nat) (timeout : Nat)
    (h : ∀ p, ∃ c, counts p = Except.ok c ∧ c ≠ 0) :
    ∀ fuel elapsed poll, ∃ n, waitLoop counts timeout fuel elapsed poll
      = Except.ok (false, n) := by
  intro fuel
  induction fuel with
  | zero => intro elapsed poll; exact ⟨poll, rfl⟩
  | succ f ih =>
    intro elapsed poll
    by_cases he : elapsed < timeout
    · obtain ⟨c, hc, hne⟩ := h poll
      obtain ⟨n, hn⟩ := ih (elapsed + 15) (poll + 1)
      exact ⟨n, by simp [waitLoop, he, hc, hne, hn]⟩
    · exact ⟨poll, by simp [waitLoop, he]⟩

/-- C7: while matching instances remain on every poll (the discovery
query keeps succeeding with a non-zero count),
`wait_for_karpenter_nodes_terminated` returns `Except.ok (false, _)` once
the elapsed time reaches the timeout: `false`, and no raised exception. -/
theorem wait_timeout_false (w : Ec2World) (cluster_name region : String) (timeout : Nat)
    (h : ∀ poll, ∃ rs, w.describeInstances region poll (karpenterFilters cluster_name)
        = Except.ok rs ∧ instanceCount rs ≠ 0) :
    ∃ n, wait_for_karpenter_nodes_terminated w cluster_name region timeout
      = Except.ok (false, n) := by
  apply waitLoop_timeout_false
  intro p
  obtain ⟨rs, hd, hc⟩ := h p
  exact ⟨instanceCount rs, by simp [hd, Except.map], hc⟩

/-- Witness for `wait_timeout_false`: one instance remains on every poll,
default 300-second timeout. -/
theorem wait_timeout_false_witness :
    (∀ poll, ∃ rs, busyEc2.describeInstances "us-east-1" poll (karpenterFilters "demo")
        = Except.ok rs ∧ instanceCount rs ≠ 0)
    ∧ ∃ n, wait_for_karpenter_nodes_terminated busyEc2 "demo" "us-east-1" 300
      = Except.ok (false, n) :=
  ⟨fun _ => ⟨[[()]], rfl, by decide⟩,
   wait_timeout_false busyEc2 "demo" "us-east-1" 300 (fun _ => ⟨[[()]], rfl, by decide⟩)⟩

/-! ## C3, C4, C5: the instance-profile retry loop -/

/-- Every profile the enumeration reaches gets a report, whatever its
retry loop did: the report list is exactly the enumerated names mapped
through the per-profile loop. -/
theorem runPages_reports (w : IamWorld) (role_name : String) (k : Nat) :
    ∀ pages, (runPages w role_name k pages).1
      = (enumeratedNames pages).map (fun n => (n, processProfile w role_name n k)) := by
  intro pages
  induction pages with
  | nil => rfl
  | cons page rest ih =>
    cases page with
    | error e => rfl
    | ok names => simp [runPages, enumeratedNames, ih]

/-- `cleanup_instance_profiles` reports on exactly the enumerated
profiles, in order, for every oracle. -/
theorem cleanup_reports (w : IamWorld) (c region : String) (k : Nat) :
    (cleanup_instance_profiles w c region k).1.reports
      = (enumeratedNames (w.listProfilePages (roleNameFor c))).map
          (fun n => (n, processProfile w (roleNameFor c) n k)) := by
  unfold cleanup_instance_profiles
  rcases h2 : (runPages w (roleNameFor c) k (w.listProfilePages (roleNameFor c))).2 with _ | e
  · simp [h2, runPages_reports]
  · cases e <;> simp [h2, runPages_reports]

/-- Helper for C3: with the role removal succeeding on every attempt, the
delete conflicting on every attempt before the last and succeeding on the
last, the loop ends in `deleted` having used every attempt. -/
theorem runAttempts_oracle_deleted (w : IamWorld) (role p : String) (k : Nat)
    (hrm : ∀ i, w.removeRes p role i = IamResult.success)
    (hconf : ∀ i, i < k - 1 → ∃ m, w.deleteRes p i = IamResult.failure m
        ∧ conflictLike m = true)
    (hlast : w.deleteRes p (k - 1) = IamResult.success) :
    ∀ fuel attempt, attempt + fuel = k → attempt < k →
      runAttempts (fun a _ => (w.removeRes p role a, ()))
        (fun a _ => (w.deleteRes p a, ())) k fuel attempt ()
        = (ProfileOutcome.deleted, k, ()) := by
  intro fuel
  induction fuel with
  | zero => intro attempt h1 h2; omega
  | succ f ih =>
    intro attempt h1 h2
    by_cases hc : attempt < k - 1
    · obtain ⟨m, hm, hcl⟩ := hconf attempt hc
      have hrec := ih (attempt + 1) (by omega) (by omega)
      simp only [runAttempts, hrm attempt, hm]
      simp [hcl, hc, hrec]
    · have hak : attempt = k - 1 := by omega
      have hk1 : k - 1 + 1 = k := by omega
      subst hak
      simp only [runAttempts, hrm, hlast]
      simp [hk1]

/-- C3: a profile whose delete conflicts on exactly the first
`max_retries - 1` attempts (with the role removal succeeding each time)
and succeeds on the final attempt ends `deleted`, with exactly
`max_retries` loop iterations executed — the loop breaks on the success
and makes no further attempt; and if the profile is enumerated, the
cleanup reports it as deleted. -/
theorem conflict_then_success_deleted (w : IamWorld) (c region p : String) (k : Nat)
    (hk : 1 ≤ k)
    (hrm : ∀ i, w.removeRes p (roleNameFor c) i = IamResult.success)
    (hconf : ∀ i, i < k - 1 → ∃ m, w.deleteRes p i = IamResult.failure m
        ∧ conflictLike m = true)
    (hlast : w.deleteRes p (k - 1) = IamResult.success) :
    processProfile w (roleNameFor c) p k = (ProfileOutcome.deleted, k)
    ∧ (p ∈ enumeratedNames (w.listProfilePages (roleNameFor c)) →
        (p, ProfileOutcome.deleted, k)
          ∈ (cleanup_instance_profiles w c region k).1.reports) := by
  have hmain : processProfile w (roleNameFor c) p k = (ProfileOutcome.deleted, k) := by
    unfold processProfile
    rw [runAttempts_oracle_deleted w (roleNameFor c) p k hrm hconf hlast k 0 (by omega)
      (by omega)]
  refine ⟨hmain, ?_⟩
  intro hmem
  rw [cleanup_reports]
  rw [← hmain]
  exact List.mem_map_of_mem (fun n => (n, processProfile w (roleNameFor c) n k)) hmem

/-- Concrete oracle for the C3 witness: deletion of profile "p1" conflicts
twice, then succeeds. -/
def conflictTwiceIam : IamWorld :=
  { listProfilePages := fun _ => [Except.ok ["p1"]]
    removeRes := fun _ _ _ => IamResult.success
    deleteRes := fun _ i =>
      if i < 2 then IamResult.failure "DeleteConflict: instance profile is in use"
      else IamResult.success }

/-- Witness for `conflict_then_success_deleted` at `max_retries = 3`. -/
theorem conflict_then_success_deleted_witness :
    processProfile conflictTwiceIam (roleNameFor "demo") "p1" 3
      = (ProfileOutcome.deleted, 3)
    ∧ ((cleanup_instance_profiles conflictTwiceIam "demo" "us-east-1" 3).1.reports
        = [("p1", ProfileOutcome.deleted, 3)]) := by
  have h := conflict_then_success_deleted conflictTwiceIam "demo" "us-east-1" "p1" 3
    (by omega) (fun i => rfl)
    (fun i hi => ⟨"DeleteConflict: instance profile is in use", by
      show (if i < 2 then IamResult.failure "DeleteConflict: instance profile is in use"
        else IamResult.success) = _
      rw [if_pos (show i < 2 by omega)], by decide⟩)
    (by decide)
  refine ⟨h.1, ?_⟩
  rw [cleanup_reports]
  have hp : enumeratedNames (conflictTwiceIam.listProfilePages (roleNameFor "demo"))
      = ["p1"] := rfl
  rw [hp]
  simp only [List.map_cons, List.map_nil]
  rw [h.1]

/-- Helper for C4: with the role removal succeeding and the delete
conflicting on every attempt, the loop warns after the last attempt and
ends, having used every attempt. -/
theorem runAttempts_oracle_conflictWarned (w : IamWorld) (role p : String) (k : Nat)
    (hrm : ∀ i, w.removeRes p role i = IamResult.success)
    (hconf : ∀ i, i < k → ∃ m, w.deleteRes p i = IamResult.failure m
        ∧ conflictLike m = true) :
    ∀ fuel attempt, attempt + fuel = k → attempt < k →
      runAttempts (fun a _ => (w.removeRes p role a, ()))
        (fun a _ => (w.deleteRes p a, ())) k fuel attempt ()
        = (ProfileOutcome.conflictWarned, k, ()) := by
  intro fuel
  induction fuel with
  | zero => intro attempt h1 h2; omega
  | succ f ih =>
    intro attempt h1 h2
    obtain ⟨m, hm, hcl⟩ := hconf attempt h2
    by_cases hc : attempt < k - 1
    · have hrec := ih (attempt + 1) (by omega) (by omega)
      simp only [runAttempts, hrm attempt, hm]
      simp [hcl, hc, hrec]
    · have hk1 : attempt + 1 = k := by omega
      simp only [runAttempts, hrm attempt, hm]
      simp [hcl, hc, hk1]

/-- C4: a profile whose delete fails with a conflict-classified error on
every one of the `max_retries` attempts ends in `conflictWarned` — the
warning-log path, with no successful delete, so the profile is still
present — after exactly `max_retries` iterations; and, for every oracle,
the cleanup still reports on every enumerated profile (second conjunct:
the report list is the full enumeration, so no profile's outcome aborts
the enumeration of the ones after it). -/
theorem conflict_exhausted_warned_continues (w : IamWorld) (c region p : String)
    (k : Nat) (hk : 1 ≤ k)
    (hrm : ∀ i, w.removeRes p (roleNameFor c) i = IamResult.success)
    (hconf : ∀ i, i < k → ∃ m, w.deleteRes p i = IamResult.failure m
        ∧ conflictLike m = true) :
    processProfile w (roleNameFor c) p k = (ProfileOutcome.conflictWarned, k)
    ∧ (cleanup_instance_profiles w c region k).1.reports
      = (enumeratedNames (w.listProfilePages (roleNameFor c))).map
          (fun n => (n, processProfile w (roleNameFor c) n k)) := by
  constructor
  · unfold processProfile
    rw [runAttempts_oracle_conflictWarned w (roleNameFor c) p k hrm hconf k 0 (by omega)
      (by omega)]
  · exact cleanup_reports w c region k

/-- Concrete oracle for the C4 witness: two profiles, the first of which
conflicts forever while the second deletes cleanly. -/
def alwaysConflictIam : IamWorld :=
  { listProfilePages := fun _ => [Except.ok ["stuck", "clean"]]
    removeRes := fun _ _ _ => IamResult.success
    deleteRes := fun profile _ =>
      if profile = "stuck" then IamResult.failure "DeleteConflict: still in use"
      else IamResult.success }

/-- Witness for `conflict_exhausted_warned_continues` at `max_retries = 3`:
the stuck profile is warned about and the following profile is still
processed (and deleted). -/
theorem conflict_exhausted_warned_continues_witness :
    processProfile alwaysConflictIam (roleNameFor "demo") "stuck" 3
      = (ProfileOutcome.conflictWarned, 3)
    ∧ (cleanup_instance_profiles alwaysConflictIam "demo" "us-east-1" 3).1.reports
      = [("stuck", ProfileOutcome.conflictWarned, 3), ("clean", ProfileOutcome.deleted, 1)] := by
  have h := conflict_exhausted_warned_continues alwaysConflictIam "demo" "us-east-1" "stuck" 3
    (by omega) (fun i => rfl)
    (fun i hi => ⟨"DeleteConflict: still in use", rfl, by decide⟩)
  refine ⟨h.1, ?_⟩
  rw [h.2]
  have hp : enumeratedNames (alwaysConflictIam.listProfilePages (roleNameFor "demo"))
      = ["stuck", "clean"] := rfl
  rw [hp]
  simp only [List.map_cons, List.map_nil]
  rw [h.1]
  have hclean : processProfile alwaysConflictIam (roleNameFor "demo") "clean" 3
      = (ProfileOutcome.deleted, 1) := by decide
  rw [hclean]

/-- C5: `cleanup_instance_profiles` never lets an exception escape to its
caller, for every oracle of the underlying IAM calls (the escaping-
exception component is always `none`); when the role does not exist
(`NoSuchEntityException` from the listing) it returns with the
"nothing to clean" outcome, and a role with zero associated profiles
completes cleanly. -/
theorem cleanup_never_raises (w : IamWorld) (c region : String) (k : Nat) :
    (cleanup_instance_profiles w c region k).2 = none
    ∧ (w.listProfilePages (roleNameFor c) = [Except.error IamErr.noSuchEntity] →
        cleanup_instance_profiles w c region k
          = ({ reports := [], listing := ListingEnd.roleNotFound }, none))
    ∧ (w.listProfilePages (roleNameFor c) = [] →
        cleanup_instance_profiles w c region k
          = ({ reports := [], listing := ListingEnd.completed }, none)) := by
  refine ⟨?_, ?_, ?_⟩
  · unfold cleanup_instance_profiles
    rcases h2 : (runPages w (roleNameFor c) k (w.listProfilePages (roleNameFor c))).2
      with _ | e
    · simp [h2]
    · cases e <;> simp [h2]
  · intro h
    simp only [cleanup_instance_profiles, h]
    rfl
  · intro h
    simp only [cleanup_instance_profiles, h]
    rfl

/-- Concrete oracle for the C5 witness: the role does not exist. -/
def missingRoleIam : IamWorld :=
  { listProfilePages := fun _ => [Except.error IamErr.noSuchEntity]
    removeRes := fun _ _ _ => IamResult.success
    deleteRes := fun _ _ => IamResult.success }

/-- Witness for `cleanup_never_raises`: a missing role and a role with no
profiles, both returning without a propagated exception. -/
theorem cleanup_never_raises_witness :
    cleanup_instance_profiles missingRoleIam "demo" "us-east-1" 3
      = ({ reports := [], listing := ListingEnd.roleNotFound }, none)
    ∧ cleanup_instance_profiles trivialIam "demo" "us-east-1" 3
      = ({ reports := [], listing := ListingEnd.completed }, none) :=
  ⟨(cleanup_never_raises missingRoleIam "demo" "us-east-1" 3).2.1 rfl,
   (cleanup_never_raises trivialIam "demo" "us-east-1" 3).2.2 rfl⟩

/-! ## C9: retrying restarts from the remove-role call -/

/-- State of one instance profile at the external IAM service, for the
stateful reading of the collaborator described in spec section 6
("list-profiles-for-role, detach-role, delete-profile, each raising
distinguishable not-found vs in-use/conflict vs other error classes"). -/
structure AwsProfileState where
  profileExists : Bool
  roleAttached : Bool
  /-- the profile is still attached to a running instance, so deleting it
  conflicts. -/
  inUse : Bool
deriving DecidableEq, Repr

/-- IAM `RemoveRoleFromInstanceProfile`: raises `NoSuchEntityException`
when the profile is gone or the role is not currently in the profile;
otherwise detaches the role. -/
def awsRemoveRole (s : AwsProfileState) : IamResult × AwsProfileState :=
  if s.profileExists = false then (IamResult.noSuchEntity, s)
  else if s.roleAttached = false then (IamResult.noSuchEntity, s)
  else (IamResult.success, { s with roleAttached := false })

/-- IAM `DeleteInstanceProfile`: raises `NoSuchEntityException` when the
profile is gone, a `DeleteConflict` error while a role is attached or a
running instance still uses it, and otherwise deletes the profile. -/
def awsDeleteProfile (s : AwsProfileState) : IamResult × AwsProfileState :=
  if s.profileExists = false then (IamResult.noSuchEntity, s)
  else if s.roleAttached = true then
    (IamResult.failure "DeleteConflict: must remove roles from instance profile first", s)
  else if s.inUse = true then
    (IamResult.failure "DeleteConflict: instance profile is currently in use", s)
  else (IamResult.success, { s with profileExists := false })

/-- C9: run against the stateful IAM service, starting from a profile
whose role is attached and which a running instance still uses: attempt 0
detaches the role and the delete raises a conflict, so the loop retries;
attempt 1 restarts from the remove-role call, which now raises
`NoSuchEntityException` because the role is no longer attached, and the
code takes its "already deleted" break — the loop stops after exactly 2
iterations with the `assumedGone` outcome (logged as already deleted)
while the profile still exists. -/
theorem retry_restarts_remove_role (k : Nat) (hk : 2 ≤ k) :
    runAttempts (fun _ s => awsRemoveRole s) (fun _ s => awsDeleteProfile s) k k 0
        { profileExists := true, roleAttached := true, inUse := true }
      = (ProfileOutcome.assumedGone, 2,
         { profileExists := true, roleAttached := false, inUse := true }) := by
  obtain ⟨j, rfl⟩ : ∃ j, k = j + 2 := ⟨k - 2, by omega⟩
  have hcl : conflictLike "DeleteConflict: instance profile is currently in use" = true := by
    decide
  have hpos : 0 < j + 2 - 1 := by omega
  show runAttempts (fun _ s => awsRemoveRole s) (fun _ s => awsDeleteProfile s) (j + 2)
      (j + 1 + 1) 0 { profileExists := true, roleAttached := true, inUse := true } = _
  rw [runAttempts]
  simp only [awsRemoveRole, awsDeleteProfile]
  simp only [show (true = false) = False by simp, if_false]
  simp [hcl, hpos, runAttempts, awsRemoveRole]

/-- Witness for `retry_restarts_remove_role` at the source's
`max_retries = 3`. -/
theorem retry_restarts_remove_role_witness :
    2 ≤ 3
    ∧ runAttempts (fun _ s => awsRemoveRole s) (fun _ s => awsDeleteProfile s) 3 3 0
        { profileExists := true, roleAttached := true, inUse := true }
      = (ProfileOutcome.assumedGone, 2,
         { profileExists := true, roleAttached := false, inUse := true }) :=
  ⟨by decide, retry_restarts_remove_role 3 (by decide)⟩

/-! ## C1: the exception boundary of the Delete path -/

/-- The `try` body after the kubectl checks can only return normally with
the fixed success response. -/
theorem teardownBody_ok (w : HandlerWorld) (c r : String) (resp : Response)
    (h : teardownBody w c r = Except.ok resp) :
    resp = { status := "SUCCESS", message := "Karpenter resources cleaned up successfully" } := by
  unfold teardownBody at h
  repeat' split at h
  all_goals (first
    | exact Except.noConfusion h
    | exact (Except.ok.inj h).symm)

/-- Every `except` clause builds a SUCCESS response. -/
theorem exceptResponse_status (e : PyExc) : (exceptResponse e).status = "SUCCESS" := by
  cases e <;> rfl

/-- A FAILED response can only come out of the two kubectl prerequisite
checks. -/
theorem handler_failed_only_kubectl (w : HandlerWorld) (e : Event) (resp : Response)
    (hok : handler w e = Except.ok resp) (hf : resp.status = "FAILED") :
    w.kubectlExists = false ∨ w.kubectlExecutable = false := by
  by_cases hke : w.kubectlExists = false
  · exact Or.inl hke
  by_cases hkx : w.kubectlExecutable = false
  · exact Or.inr hkx
  exfalso
  simp only [Bool.not_eq_false] at hke hkx
  rcases hrt : e.requestType with _ | rt
  · simp only [handler, hrt] at hok
    exact Except.noConfusion hok
  rcases hrp : e.resourceProperties with _ | props
  · simp only [handler, hrt, hrp] at hok
    exact Except.noConfusion hok
  rcases hcn : props.clusterName with _ | cn
  · simp only [handler, hrt, hrp, hcn] at hok
    exact Except.noConfusion hok
  simp only [handler, hrt, hrp, hcn] at hok
  by_cases htr : truthy (pyOr props.region w.awsRegion) = false
  · rw [if_pos htr] at hok
    exact Except.noConfusion hok
  rw [if_neg htr] at hok
  by_cases hdel : rt ≠ "Delete"
  · rw [if_pos hdel] at hok
    have h := Except.ok.inj hok
    rw [← h] at hf
    simp at hf
  rw [if_neg hdel] at hok
  rcases htb : tryBlock w cn ((pyOr props.region w.awsRegion).getD "") with exc | resp'
  · rw [htb] at hok
    have h : exceptResponse exc = resp := Except.ok.inj hok
    rw [← h, exceptResponse_status] at hf
    simp at hf
  · rw [htb] at hok
    have h : resp' = resp := Except.ok.inj hok
    unfold tryBlock at htb
    rw [hke, hkx] at htb
    simp only [Bool.true_eq_false, if_false] at htb
    have hsucc := teardownBody_ok _ _ _ _ htb
    rw [← h, hsucc] at hf
    simp at hf

/-- Environment for the C1 counterexample and witness: everything is in
place, but the `aws eks update-kubeconfig` step (the credential refresh)
raises `subprocess.TimeoutExpired`. -/
def timeoutWorld : HandlerWorld :=
  { awsRegion := none
    kubectlExists := true
    kubectlExecutable := true
    subprocessRun := fun args _ =>
      if args = ["aws", "eks", "update-kubeconfig", "--name", "demo", "--region", "us-east-1"]
      then RunOutcome.timedOut "Command update-kubeconfig timed out after 60 seconds"
      else RunOutcome.completed 0 "" ""
    ec2 := emptyEc2
    iam := trivialIam }

/-- A well-formed Delete event. -/
def deleteEvent : Event :=
  { requestType := some "Delete"
    resourceProperties := some { clusterName := some "demo", region := some "us-east-1" } }

/-- Counterexample to C1 as frozen: a `TimeoutExpired` raised during the
credential-refresh step is indeed converted to a SUCCESS response, but
its message is the fixed text "Cleanup attempted but timed out" (source
line 195), which does not embed the raised error's text. -/
theorem timeout_message_counterexample :
    teardownBody timeoutWorld "demo" "us-east-1"
      = Except.error
          (PyExc.timeoutExpired "Command update-kubeconfig timed out after 60 seconds")
    ∧ handler timeoutWorld deleteEvent
      = Except.ok { status := "SUCCESS", message := "Cleanup attempted but timed out" }
    ∧ strContains "Cleanup attempted but timed out"
        "Command update-kubeconfig timed out after 60 seconds" = false :=
  ⟨rfl, rfl, by decide⟩

/-- C1 (amended): for a Delete event that reaches the teardown (keys
present, region resolvable, kubectl present and executable), any
exception raised by the teardown body is caught at the handler boundary
and converted into a SUCCESS response; the message embeds the error text
for generic exceptions and for `CalledProcessError` (its stderr), while a
`TimeoutExpired` yields the fixed message "Cleanup attempted but timed
out".  A FAILED status can only be reported by the kubectl
missing/non-executable checks, each with its descriptive message. -/
theorem delete_boundary_amended (w : HandlerWorld) (e : Event) (props : Props)
    (cn reg : String) (exc : PyExc)
    (h1 : e.requestType = some "Delete")
    (h2 : e.resourceProperties = some props)
    (h3 : props.clusterName = some cn)
    (h4 : pyOr props.region w.awsRegion = some reg) (h5 : reg ≠ "")
    (hex : w.kubectlExists = true) (hxx : w.kubectlExecutable = true)
    (hraise : teardownBody w cn reg = Except.error exc) :
    handler w e = Except.ok (exceptResponse exc)
    ∧ (exceptResponse exc).status = "SUCCESS"
    ∧ (∀ m, exc = PyExc.other m → strContains (exceptResponse exc).message m = true)
    ∧ (∀ s, exc = PyExc.calledProcessError s →
        strContains (exceptResponse exc).message s = true)
    ∧ (∀ m, exc = PyExc.timeoutExpired m →
        (exceptResponse exc).message = "Cleanup attempted but timed out")
    ∧ (∀ w'' : HandlerWorld, w''.awsRegion = w.awsRegion → w''.kubectlExists = false →
        handler w'' e = Except.ok
          { status := "FAILED", message := "kubectl not found at " ++ kubectlPath })
    ∧ (∀ w'' : HandlerWorld, w''.awsRegion = w.awsRegion → w''.kubectlExists = true →
        w''.kubectlExecutable = false →
        handler w'' e = Except.ok
          { status := "FAILED", message := "kubectl at " ++ kubectlPath ++ " is not executable" })
    ∧ (∀ (w' : HandlerWorld) (e' : Event) (r : Response),
        handler w' e' = Except.ok r → r.status = "FAILED" →
        w'.kubectlExists = false ∨ w'.kubectlExecutable = false) := by
  have htruthy : truthy (pyOr props.region w.awsRegion) = true := by
    rw [h4]; simp [truthy, h5]
  have hgetd : (pyOr props.region w.awsRegion).getD "" = reg := by rw [h4]; rfl
  refine ⟨?_, exceptResponse_status exc, ?_, ?_, ?_, ?_, ?_, handler_failed_only_kubectl⟩
  · simp [handler, h1, h2, h3, htruthy, hgetd, tryBlock, hex, hxx, hraise]
  · intro m hm
    subst hm
    simpa [exceptResponse, pyStr] using strContains_append "Cleanup attempted with errors: " m
  · intro s hs
    subst hs
    simpa [exceptResponse] using strContains_append "Cleanup attempted with warnings: " s
  · intro m hm
    subst hm
    rfl
  · intro w'' hreg hke
    have htruthy'' : truthy (pyOr props.region w''.awsRegion) = true := by
      rw [hreg]; exact htruthy
    simp [handler, h1, h2, h3, htruthy'', tryBlock, hke]
  · intro w'' hreg hke hkx
    have htruthy'' : truthy (pyOr props.region w''.awsRegion) = true := by
      rw [hreg]; exact htruthy
    simp [handler, h1, h2, h3, htruthy'', tryBlock, hke, hkx]

/-- Witness for `delete_boundary_amended`: the timeout world, where the
teardown raises and the handler answers SUCCESS all the same. -/
theorem delete_boundary_amended_witness :
    teardownBody timeoutWorld "demo" "us-east-1"
      = Except.error
          (PyExc.timeoutExpired "Command update-kubeconfig timed out after 60 seconds")
    ∧ handler timeoutWorld deleteEvent
      = Except.ok (exceptResponse
          (PyExc.timeoutExpired "Command update-kubeconfig timed out after 60 seconds")) :=
  ⟨rfl,
   (delete_boundary_amended timeoutWorld deleteEvent
      { clusterName := some "demo", region := some "us-east-1" } "demo" "us-east-1"
      (PyExc.timeoutExpired "Command update-kubeconfig timed out after 60 seconds")
      rfl rfl rfl rfl (by decide) rfl rfl rfl).1⟩

end KarpenterCleanup
